import Mathlib

/-!
Shallow embedding of the quest lifecycle orchestrator of the Lunoa backend
(`Backend/src/api/v1/quests/quests.controller.ts`), covering the handlers
`joinQuest`, `completeQuest`, `verifyQuestCompletion`, and `deleteQuest`.

The relational store is modelled as explicit lists of rows.  Each handler is
a pure function from the database state (plus request parameters) to an
outcome, the new database state, and — for the transactional handlers — the
trace of transaction-resource events (connect / BEGIN / query / COMMIT /
ROLLBACK / release) that the source emits on that path.  A data-layer
failure thrown by the k-th data query inside a transaction is modelled by
the `failAt` parameter (`some k`); the source's `catch` block then rolls the
transaction back and reports an internal error, exactly as in the code.
Rolled-back paths return the original database state.

The database schema itself is not part of the repository's sources.
Modelled from the spec: the `quest_participants` table has a uniqueness
constraint on (quest_id, user_id), whose violation surfaces as PostgreSQL
error code 23505, and a newly inserted participation row has status
`joined`.
-/

structure QuestRow where
  id : Nat
  creator_id : Nat
  reward_amount : Nat
  status : String
  expires_at : Int
deriving DecidableEq, Repr

structure ParticipationRow where
  quest_id : Nat
  user_id : Nat
  status : String
  proof_of_completion : Option String
deriving DecidableEq, Repr

structure ActivityRow where
  user_id : Nat
  activity_type : String
  quest_id : Option Nat
  participant_id : Option Nat
  verifier_id : Option Nat
  proof : Option String
  achievement_id : Option Nat
deriving DecidableEq, Repr

structure AchievementRow where
  user_id : Nat
  achievement_id : Nat
deriving DecidableEq, Repr

structure UserRow where
  id : Nat
  aptos_address : Option String
deriving DecidableEq, Repr

structure DB where
  quests : List QuestRow
  quest_participants : List ParticipationRow
  user_activities : List ActivityRow
  user_achievements : List AchievementRow
  users : List UserRow
deriving DecidableEq, Repr

/-- Caller-facing outcomes, abstracting the HTTP codes the controller sends:
401, 400 (missing field), 404, 400 (self-join), 403, 409,
400 (wrong status, carrying the current status), 200/204, 500. -/
inductive Outcome where
  | notAuthorized
  | validationError
  | notFound
  | invalidOperation
  | forbidden
  | conflict
  | invalidState (current : String)
  | ok
  | internalError
deriving DecidableEq, Repr

/-- Transaction-resource events: `pool.connect()`, `BEGIN`, a data query,
`COMMIT`, `ROLLBACK`, `client.release()`. -/
inductive Ev where
  | connect
  | begin
  | query
  | commit
  | rollback
  | release
deriving DecidableEq, Repr

/-- The event trace of a transaction that ran `n` data queries and finished
with `endEv` (COMMIT or ROLLBACK) before releasing the client. -/
def txTrace (n : Nat) (endEv : Ev) : List Ev :=
  [Ev.connect, Ev.begin] ++ List.replicate n Ev.query ++ [endEv, Ev.release]

/-- `SELECT ... FROM quests WHERE id = $1`, first row. -/
def findQuest (db : DB) (qid : Nat) : Option QuestRow :=
  db.quests.find? (fun q => q.id == qid)

/-- `SELECT status FROM quest_participants WHERE quest_id = $1 AND user_id = $2`. -/
def findParticipation (db : DB) (qid uid : Nat) : Option ParticipationRow :=
  db.quest_participants.find? (fun p => p.quest_id == qid && p.user_id == uid)

/-- `SELECT COUNT(*) FROM quest_participants WHERE user_id = $1 AND status = 'verified'`. -/
def countVerified (db : DB) (uid : Nat) : Nat :=
  (db.quest_participants.filter (fun p => p.user_id == uid && p.status == "verified")).length

/-- `SELECT 1 FROM user_achievements WHERE user_id = $1 AND achievement_id = $2`,
as a Boolean existence check. -/
def hasAchievement (db : DB) (uid aid : Nat) : Bool :=
  db.user_achievements.any (fun a => a.user_id == uid && a.achievement_id == aid)

/-- `SELECT aptos_address FROM users WHERE id = $1`, first row. -/
def findUser (db : DB) (uid : Nat) : Option UserRow :=
  db.users.find? (fun u => u.id == uid)

/-- Number of participation rows for a (quest, participant) pair. -/
def countParticipations (db : DB) (qid uid : Nat) : Nat :=
  (db.quest_participants.filter (fun p => p.quest_id == qid && p.user_id == uid)).length

/-- Number of achievement-grant rows for a (user, achievement) pair. -/
def countGrants (db : DB) (uid aid : Nat) : Nat :=
  (db.user_achievements.filter (fun a => a.user_id == uid && a.achievement_id == aid)).length

/-- Number of activity-log rows of a given kind. -/
def countActivities (db : DB) (kind : String) : Nat :=
  (db.user_activities.filter (fun a => a.activity_type == kind)).length

/-- PostgreSQL's unique-constraint violation error code, as matched on
line 211 of the controller. -/
def pgUniqueViolation : String := "23505"

/-- The error translation in `joinQuest`'s catch block (lines 209-216):
exactly the code-23505 condition becomes Conflict (409, "already joined");
every other data-layer failure becomes an internal error (500). -/
def joinErrorToOutcome (code : String) : Outcome :=
  if code == pgUniqueViolation then Outcome.conflict else Outcome.internalError

/-- `joinQuest` (lines 183-217).  The INSERT into `quest_participants`
raises the unique-violation code exactly when a row for the pair already
exists (modelled from the spec: the uniqueness constraint on
(quest_id, user_id)); the new row's status defaults to `joined`. -/
def joinQuest (db : DB) (questId : Nat) (userId : Option Nat) : Outcome × DB :=
  match userId with
  | none => (Outcome.notAuthorized, db)
  | some uid =>
    match findQuest db questId with
    | none => (Outcome.notFound, db)
    | some q =>
      if q.creator_id == uid then
        (Outcome.invalidOperation, db)
      else if (findParticipation db questId uid).isSome then
        (joinErrorToOutcome pgUniqueViolation, db)
      else
        (Outcome.ok,
          { db with quest_participants :=
              db.quest_participants ++ [⟨questId, uid, "joined", none⟩] })

/-- `UPDATE quest_participants SET status = 'submitted', proof_of_completion = $1
WHERE quest_id = $2 AND user_id = $3`. -/
def setSubmitted (l : List ParticipationRow) (qid uid : Nat) (pf : String) :
    List ParticipationRow :=
  l.map (fun r =>
    if r.quest_id == qid && r.user_id == uid then
      { r with status := "submitted", proof_of_completion := some pf }
    else r)

/-- `UPDATE quest_participants SET status = 'verified'
WHERE quest_id = $1 AND user_id = $2`. -/
def setVerified (l : List ParticipationRow) (qid uid : Nat) : List ParticipationRow :=
  l.map (fun r =>
    if r.quest_id == qid && r.user_id == uid then
      { r with status := "verified" }
    else r)

/-- `completeQuest` (lines 222-278): submit completion proof.  Returns the
outcome, the resulting database state, and the transaction event trace. -/
def completeQuest (db : DB) (questId : Nat) (userId : Option Nat)
    (proofOfCompletion : Option String) (failAt : Option Nat) :
    Outcome × DB × List Ev :=
  match userId with
  | none => (Outcome.notAuthorized, db, [])
  | some uid =>
    match proofOfCompletion with
    | none => (Outcome.validationError, db, [])
    | some pf =>
      if pf == "" then
        (Outcome.validationError, db, [])
      else if failAt == some 0 then
        (Outcome.internalError, db, txTrace 1 Ev.rollback)
      else
        match findParticipation db questId uid with
        | none => (Outcome.forbidden, db, txTrace 1 Ev.rollback)
        | some p =>
          if p.status != "joined" then
            (Outcome.invalidState p.status, db, txTrace 1 Ev.rollback)
          else if failAt == some 1 then
            (Outcome.internalError, db, txTrace 2 Ev.rollback)
          else if failAt == some 2 then
            (Outcome.internalError, db, txTrace 3 Ev.rollback)
          else
            let db1 := { db with
              quest_participants := setSubmitted db.quest_participants questId uid pf }
            let db2 := { db1 with
              user_activities := db1.user_activities ++
                [⟨uid, "quest_submitted", some questId, none, none, some pf, none⟩] }
            (Outcome.ok, db2, txTrace 3 Ev.commit)

/-- The two writes of the verify transaction that precede achievement
evaluation: participation status to `verified` plus the `quest_verified`
activity record (lines 329-338). -/
def verifiedWrite (db : DB) (qid pid vid : Nat) : DB :=
  { db with
    quest_participants := setVerified db.quest_participants qid pid,
    user_activities := db.user_activities ++
      [⟨pid, "quest_verified", some qid, some pid, some vid, none, none⟩] }

/-- The achievement-evaluation step inside the verify transaction
(lines 340-367), on the state `db2` that already contains the status write:
if the participant's verified-participation count is exactly one and no
grant row exists yet, insert the grant and its activity record. -/
def awardFirstQuest (db2 : DB) (pid : Nat) : DB :=
  if countVerified db2 pid == 1 && !(hasAchievement db2 pid 1) then
    { db2 with
      user_achievements := db2.user_achievements ++ [⟨pid, 1⟩],
      user_activities := db2.user_activities ++
        [⟨pid, "achievement_unlocked", none, none, none, none, some 1⟩] }
  else db2

/-- The post-commit reward dispatch (lines 371-385): read the participant's
payment address; when present, attempt `distribute(address, rewardAmount)`
exactly once.  The returned list records the attempted dispatch calls. -/
def dispatchReward (db : DB) (pid rewardAmount : Nat) : List (String × Nat) :=
  match (findUser db pid).bind (fun u => u.aptos_address) with
  | some a => [(a, rewardAmount)]
  | none => []

/-- The tail of the verify transaction once all preconditions have passed
(lines 329-387): the status write and `quest_verified` activity record,
achievement evaluation, commit, and the post-commit best-effort reward
dispatch.  `db` is the state at transaction start; data-layer failures past
this point still roll back to `db`. -/
def verifyCommitPhase (db : DB) (questId pid vid : Nat) (q : QuestRow)
    (failAt : Option Nat) : Outcome × DB × List (String × Nat) × List Ev :=
  if failAt == some 4 then
    (Outcome.internalError, db, [], txTrace 5 Ev.rollback)
  else if countVerified (verifiedWrite db questId pid vid) pid == 1 then
    if failAt == some 5 then
      (Outcome.internalError, db, [], txTrace 6 Ev.rollback)
    else if hasAchievement (verifiedWrite db questId pid vid) pid 1 then
      (Outcome.ok, verifiedWrite db questId pid vid,
        dispatchReward (verifiedWrite db questId pid vid) pid q.reward_amount,
        txTrace 6 Ev.commit)
    else if failAt == some 6 then
      (Outcome.internalError, db, [], txTrace 7 Ev.rollback)
    else if failAt == some 7 then
      (Outcome.internalError, db, [], txTrace 8 Ev.rollback)
    else
      (Outcome.ok, awardFirstQuest (verifiedWrite db questId pid vid) pid,
        dispatchReward (awardFirstQuest (verifiedWrite db questId pid vid) pid)
          pid q.reward_amount,
        txTrace 8 Ev.commit)
  else
    (Outcome.ok, verifiedWrite db questId pid vid,
      dispatchReward (verifiedWrite db questId pid vid) pid q.reward_amount,
      txTrace 5 Ev.commit)

/-- `verifyQuestCompletion` (lines 283-396).  Returns the outcome, the
resulting database state, the attempted reward-dispatch calls
(address, amount), and the transaction event trace.  `dispatchFails`
injects a failure of the external distributor; the source catches it after
commit, so it cannot influence the outcome or the state. -/
def verifyQuestCompletion (db : DB) (questId : Nat) (verifierId : Option Nat)
    (participantId : Option Nat) (failAt : Option Nat) (dispatchFails : Bool) :
    Outcome × DB × List (String × Nat) × List Ev :=
  match verifierId with
  | none => (Outcome.notAuthorized, db, [], [])
  | some vid =>
    match participantId with
    | none => (Outcome.validationError, db, [], [])
    | some pid =>
      if failAt == some 0 then
        (Outcome.internalError, db, [], txTrace 1 Ev.rollback)
      else
        match findQuest db questId with
        | none => (Outcome.notFound, db, [], txTrace 1 Ev.rollback)
        | some q =>
          if q.creator_id != vid then
            (Outcome.forbidden, db, [], txTrace 1 Ev.rollback)
          else if failAt == some 1 then
            (Outcome.internalError, db, [], txTrace 2 Ev.rollback)
          else
            match findParticipation db questId pid with
            | none => (Outcome.notFound, db, [], txTrace 2 Ev.rollback)
            | some p =>
              if p.status != "submitted" then
                (Outcome.invalidState p.status, db, [], txTrace 2 Ev.rollback)
              else if failAt == some 2 then
                (Outcome.internalError, db, [], txTrace 3 Ev.rollback)
              else if failAt == some 3 then
                (Outcome.internalError, db, [], txTrace 4 Ev.rollback)
              else
                verifyCommitPhase db questId pid vid q failAt

/-- `deleteQuest` (lines 153-178): idempotent delete; a missing quest is
already considered deleted (204). -/
def deleteQuest (db : DB) (questId : Nat) (userId : Option Nat) : Outcome × DB :=
  match findQuest db questId with
  | none => (Outcome.ok, db)
  | some q =>
    if userId == some q.creator_id then
      (Outcome.ok, { db with quests := db.quests.filter (fun r => !(r.id == questId)) })
    else
      (Outcome.forbidden, db)

/-! ### Helper lemmas -/

/-! ### Concrete example states and trace/invariant predicates -/

def exEmptyDb : DB := ⟨[], [], [], [], []⟩

def exQ10 : QuestRow := ⟨11, 1, 100, "expired", -5⟩

def exDb10 : DB := ⟨[exQ10], [], [], [], []⟩

def exQ5 : QuestRow := ⟨10, 1, 500000, "active", 0⟩

def exP5 : ParticipationRow := ⟨10, 2, "joined", none⟩

def exDb5 : DB := ⟨[exQ5], [exP5], [], [], []⟩

def exP6 : ParticipationRow := ⟨10, 2, "verified", some "pf"⟩

def exDb6 : DB := ⟨[exQ5], [exP6], [], [], []⟩

def exDb4 : DB := ⟨[⟨10, 1, 100, "active", 0⟩], [], [], [], []⟩

/-- The invariant: no participation row pairs a quest with its own creator. -/
def creatorNoSelfRow (db : DB) : Prop :=
  ∀ p ∈ db.quest_participants, ∀ q ∈ db.quests,
    q.id = p.quest_id → q.creator_id ≠ p.user_id

def exQ : QuestRow := ⟨10, 1, 500000, "active", 0⟩

def exP : ParticipationRow := ⟨10, 2, "submitted", some "pf"⟩

def exU : UserRow := ⟨2, some "0xAA"⟩

def exDb : DB := ⟨[exQ], [exP], [], [], [exU]⟩

def exDbNoAddr : DB := ⟨[exQ], [exP], [], [], []⟩

/-- Well-formed transaction-resource usage for one handler invocation with
outcome `r` and event trace `tr`: the client is released last on every
path that acquired it; every transaction that began and did not succeed
was rolled back (before the final release) and never committed; and a
successful transaction committed and was never rolled back. -/
def goodTrace (r : Outcome) (tr : List Ev) : Prop :=
  (tr = [] ∨ tr.getLast? = some Ev.release) ∧
  (tr ≠ [] → tr.head? = some Ev.connect) ∧
  (Ev.begin ∈ tr → r ≠ Outcome.ok → Ev.rollback ∈ tr ∧ Ev.commit ∉ tr) ∧
  (r = Outcome.ok → Ev.begin ∈ tr → Ev.commit ∈ tr ∧ Ev.rollback ∉ tr)

lemma awardFirstQuest_users (d : DB) (pid : Nat) :
    (awardFirstQuest d pid).users = d.users := by
  unfold awardFirstQuest; split <;> rfl

lemma awardFirstQuest_quests (d : DB) (pid : Nat) :
    (awardFirstQuest d pid).quests = d.quests := by
  unfold awardFirstQuest; split <;> rfl

lemma awardFirstQuest_parts (d : DB) (pid : Nat) :
    (awardFirstQuest d pid).quest_participants = d.quest_participants := by
  unfold awardFirstQuest; split <;> rfl

lemma setVerified_status (l : List ParticipationRow) (qid uid : Nat) :
    ∀ r ∈ setVerified l qid uid, r.quest_id = qid → r.user_id = uid →
      r.status = "verified" := by
  intro r hr h1 h2
  simp only [setVerified, List.mem_map] at hr
  obtain ⟨x, hx, hfx⟩ := hr
  by_cases hc : (x.quest_id == qid && x.user_id == uid) = true
  · rw [if_pos hc] at hfx
    subst hfx; rfl
  · rw [if_neg hc] at hfx
    subst hfx
    exact absurd (by simp [h1, h2]) hc

lemma mem_setSubmitted (l : List ParticipationRow) (qid uid : Nat) (pf : String) :
    ∀ r ∈ setSubmitted l qid uid pf, ∃ x ∈ l,
      r.quest_id = x.quest_id ∧ r.user_id = x.user_id := by
  intro r hr
  simp only [setSubmitted, List.mem_map] at hr
  obtain ⟨x, hx, hfx⟩ := hr
  refine ⟨x, hx, ?_⟩
  by_cases hc : (x.quest_id == qid && x.user_id == uid) = true
  · rw [if_pos hc] at hfx; subst hfx; exact ⟨rfl, rfl⟩
  · rw [if_neg hc] at hfx; subst hfx; exact ⟨rfl, rfl⟩

lemma mem_setVerified (l : List ParticipationRow) (qid uid : Nat) :
    ∀ r ∈ setVerified l qid uid, ∃ x ∈ l,
      r.quest_id = x.quest_id ∧ r.user_id = x.user_id := by
  intro r hr
  simp only [setVerified, List.mem_map] at hr
  obtain ⟨x, hx, hfx⟩ := hr
  refine ⟨x, hx, ?_⟩
  by_cases hc : (x.quest_id == qid && x.user_id == uid) = true
  · rw [if_pos hc] at hfx; subst hfx; exact ⟨rfl, rfl⟩
  · rw [if_neg hc] at hfx; subst hfx; exact ⟨rfl, rfl⟩

/-! ### C9: delete-quest is idempotent -/

/-- C9: delete-quest is idempotent at the public interface: a delete whose
quest id matches no existing quest returns success (204, no writes), and
deleting the same quest twice yields the same outcome and state as
deleting it once. -/
theorem deleteQuest_idempotent (db : DB) (questId : Nat) (userId : Option Nat) :
    (findQuest db questId = none → deleteQuest db questId userId = (Outcome.ok, db)) ∧
    deleteQuest (deleteQuest db questId userId).2 questId userId =
      deleteQuest db questId userId := by
  constructor
  · intro h
    simp [deleteQuest, h]
  · rcases h : findQuest db questId with _ | q
    · simp [deleteQuest, h]
    · by_cases hu : userId = some q.creator_id
      · have h2 : findQuest
            { db with quests := db.quests.filter (fun r => !(r.id == questId)) }
            questId = none := by
          simp only [findQuest, List.find?_eq_none]
          intro r hr
          simp only [List.mem_filter] at hr
          simpa using hr.2
        simp [deleteQuest, h, hu, h2]
      · simp [deleteQuest, h, hu]

theorem deleteQuest_idempotent_witness :
    deleteQuest exEmptyDb 5 (some 1) = (Outcome.ok, exEmptyDb) :=
  (deleteQuest_idempotent exEmptyDb 5 (some 1)).1 rfl

/-! ### C10: join never inspects quest status or expiry -/

/-- C10: join never inspects the quest's status or expiry: whenever the
quest row exists, the requester is not the creator, and no participation
row exists, the join succeeds and inserts the row — the hypotheses place no
constraint on the quest's `status` or `expires_at`, so the join succeeds
even for `completed` or `expired` quests or past expiry timestamps. -/
theorem joinQuest_ignores_quest_state (db : DB) (questId uid : Nat) (q : QuestRow)
    (hq : findQuest db questId = some q) (hne : q.creator_id ≠ uid)
    (hno : findParticipation db questId uid = none) :
    joinQuest db questId (some uid) =
      (Outcome.ok,
        { db with quest_participants :=
            db.quest_participants ++ [⟨questId, uid, "joined", none⟩] }) := by
  simp [joinQuest, hq, hno, hne]

theorem joinQuest_ignores_quest_state_witness :
    joinQuest exDb10 11 (some 2) =
      (Outcome.ok,
        { exDb10 with quest_participants :=
            exDb10.quest_participants ++ [⟨11, 2, "joined", none⟩] }) :=
  joinQuest_ignores_quest_state exDb10 11 2 exQ10 rfl (by decide) rfl

/-! ### C5: duplicate join returns Conflict -/

/-- C5: a join by a user who already has a participation row returns
Conflict — translated from exactly the data layer's unique-violation code
23505, while every other write failure becomes an internal error — and
leaves exactly one participation row for the pair. -/
theorem joinQuest_duplicate_conflict (db : DB) (questId uid : Nat) (q : QuestRow)
    (p : ParticipationRow)
    (hq : findQuest db questId = some q) (hne : q.creator_id ≠ uid)
    (hp : findParticipation db questId uid = some p) :
    joinQuest db questId (some uid) = (Outcome.conflict, db) ∧
    (countParticipations db questId uid = 1 →
      countParticipations (joinQuest db questId (some uid)).2 questId uid = 1) ∧
    (∀ code : String,
      joinErrorToOutcome code = Outcome.conflict ↔ code = pgUniqueViolation) := by
  have hmain : joinQuest db questId (some uid) = (Outcome.conflict, db) := by
    simp [joinQuest, hq, hp, hne, joinErrorToOutcome, pgUniqueViolation]
  refine ⟨hmain, ?_, ?_⟩
  · intro h1
    rw [hmain]
    exact h1
  · intro code
    unfold joinErrorToOutcome
    by_cases hc : code = pgUniqueViolation
    · simp [hc]
    · simp [hc]

theorem joinQuest_duplicate_conflict_witness :
    joinQuest exDb5 10 (some 2) = (Outcome.conflict, exDb5) ∧
    countParticipations (joinQuest exDb5 10 (some 2)).2 10 2 = 1 := by
  have h := joinQuest_duplicate_conflict exDb5 10 2 exQ5 exP5 rfl (by decide) rfl
  exact ⟨h.1, h.2.1 (by decide)⟩

/-! ### C6: submit-completion only succeeds from status `joined` -/

/-- C6: submit-completion succeeds only when a participation row exists
with status `joined`; a missing row returns Forbidden, and any other
status (such as `submitted` or `verified`) returns InvalidState carrying
that status and leaves the database unchanged. -/
theorem completeQuest_requires_joined (db : DB) (questId uid : Nat) (pf : String)
    (hpf : pf ≠ "") :
    (findParticipation db questId uid = none →
      completeQuest db questId (some uid) (some pf) none =
        (Outcome.forbidden, db, txTrace 1 Ev.rollback)) ∧
    (∀ p, findParticipation db questId uid = some p → p.status ≠ "joined" →
      completeQuest db questId (some uid) (some pf) none =
        (Outcome.invalidState p.status, db, txTrace 1 Ev.rollback)) ∧
    (∀ p, findParticipation db questId uid = some p → p.status = "joined" →
      (completeQuest db questId (some uid) (some pf) none).1 = Outcome.ok) := by
  refine ⟨?_, ?_, ?_⟩
  · intro h
    simp [completeQuest, hpf, h]
  · intro p hp hs
    simp [completeQuest, hpf, hp, hs]
  · intro p hp hs
    simp [completeQuest, hpf, hp, hs]

theorem completeQuest_requires_joined_witness :
    completeQuest exDb6 10 (some 2) (some "x") none =
      (Outcome.invalidState "verified", exDb6, txTrace 1 Ev.rollback) :=
  (completeQuest_requires_joined exDb6 10 2 "x" (by decide)).2.1 exP6 rfl (by decide)

/-! ### C4: verify precondition failures -/

/-- C4 counterexample: with the quest present, the requester equal to the
creator, and no participation row for the participant, the code returns
NotFound (HTTP 404, "Participant not found for this quest"), not Forbidden
as the claim states. -/
theorem verify_missing_row_not_forbidden :
    (verifyQuestCompletion exDb4 10 (some 1) (some 2) none false).1 =
        Outcome.notFound ∧
    (verifyQuestCompletion exDb4 10 (some 1) (some 2) none false).1 ≠
        Outcome.forbidden := by
  decide

/-- C4 amended: a verify request that fails its preconditions performs no
writes; it returns Forbidden when the requester is not the quest's creator,
NotFound when no participation row exists for (quest, participant), and
InvalidState carrying the current status when the status is not
`submitted`. -/
theorem verify_precondition_failures (db : DB) (questId vid pid : Nat)
    (q : QuestRow) (hq : findQuest db questId = some q) :
    (q.creator_id ≠ vid →
      verifyQuestCompletion db questId (some vid) (some pid) none false =
        (Outcome.forbidden, db, [], txTrace 1 Ev.rollback)) ∧
    (q.creator_id = vid → findParticipation db questId pid = none →
      verifyQuestCompletion db questId (some vid) (some pid) none false =
        (Outcome.notFound, db, [], txTrace 2 Ev.rollback)) ∧
    (q.creator_id = vid → ∀ p, findParticipation db questId pid = some p →
      p.status ≠ "submitted" →
      verifyQuestCompletion db questId (some vid) (some pid) none false =
        (Outcome.invalidState p.status, db, [], txTrace 2 Ev.rollback)) := by
  refine ⟨?_, ?_, ?_⟩
  · intro hne
    simp [verifyQuestCompletion, hq, hne]
  · intro hc hno
    simp [verifyQuestCompletion, hq, hc, hno]
  · intro hc p hp hs
    simp [verifyQuestCompletion, hq, hc, hp, hs]

theorem verify_precondition_failures_witness :
    verifyQuestCompletion exDb4 10 (some 1) (some 2) none false =
      (Outcome.notFound, exDb4, [], txTrace 2 Ev.rollback) :=
  (verify_precondition_failures exDb4 10 1 2 ⟨10, 1, 100, "active", 0⟩ rfl).2.1
    rfl rfl

/-! ### C7: the creator never holds a participation row for their own quest -/

lemma find?_unique_id (l : List QuestRow) (qid : Nat) (q : QuestRow)
    (hPW : l.Pairwise (fun a b => a.id ≠ b.id))
    (hf : l.find? (fun r => r.id == qid) = some q) :
    ∀ r ∈ l, r.id = qid → r = q := by
  induction l with
  | nil => simp at hf
  | cons a t ih =>
    rcases List.pairwise_cons.mp hPW with ⟨ha, hPW'⟩
    intro r hr hrid
    by_cases hc : (a.id == qid) = true
    · have haq : a.id = qid := by simpa using hc
      simp only [List.find?_cons, hc] at hf
      obtain rfl : a = q := by simpa using hf
      rcases List.mem_cons.mp hr with rfl | hrt
      · rfl
      · exact absurd (hrid.trans haq.symm) (ha r hrt).symm
    · have hcf : (a.id == qid) = false := by simpa using hc
      simp only [List.find?_cons, hcf] at hf
      rcases List.mem_cons.mp hr with rfl | hrt
      · exact absurd hrid (by simpa using hc)
      · exact ih hPW' hf r hrt hrid

set_option maxHeartbeats 1000000 in
/-- Every database state `completeQuest` can return is either the input
state (rolled back) or the committed submit-write. -/
lemma completeQuest_db_cases (db : DB) (questId : Nat) (userId : Option Nat)
    (pf : Option String) (failAt : Option Nat) :
    (completeQuest db questId userId pf failAt).2.1 = db ∨
    ∃ uid pfv,
      (completeQuest db questId userId pf failAt).2.1 =
        { db with
          quest_participants := setSubmitted db.quest_participants questId uid pfv,
          user_activities := db.user_activities ++
            [⟨uid, "quest_submitted", some questId, none, none, some pfv, none⟩] } := by
  unfold completeQuest
  split
  · exact Or.inl rfl
  split
  · exact Or.inl rfl
  split
  · exact Or.inl rfl
  split
  · exact Or.inl rfl
  split
  · exact Or.inl rfl
  split
  · exact Or.inl rfl
  split
  · exact Or.inl rfl
  split
  · exact Or.inl rfl
  · exact Or.inr ⟨_, _, rfl⟩

set_option maxHeartbeats 1000000 in
/-- Every database state `verifyQuestCompletion` can return is either the
input state (rolled back) or a committed verify-write, with or without the
achievement award. -/
lemma verifyCommitPhase_db_cases (db : DB) (questId pid vid : Nat)
    (q : QuestRow) (failAt : Option Nat) :
    (verifyCommitPhase db questId pid vid q failAt).2.1 = db ∨
    (∃ pid2 vid2,
      (verifyCommitPhase db questId pid vid q failAt).2.1 =
        verifiedWrite db questId pid2 vid2) ∨
    (∃ pid2 vid2,
      (verifyCommitPhase db questId pid vid q failAt).2.1 =
        awardFirstQuest (verifiedWrite db questId pid2 vid2) pid2) := by
  unfold verifyCommitPhase
  repeat' split
  all_goals
    first
      | exact Or.inl rfl
      | exact Or.inr (Or.inl ⟨_, _, rfl⟩)
      | exact Or.inr (Or.inr ⟨_, _, rfl⟩)

lemma verifyQuestCompletion_db_cases (db : DB) (questId : Nat)
    (verifierId participantId : Option Nat) (failAt : Option Nat)
    (dispatchFails : Bool) :
    (verifyQuestCompletion db questId verifierId participantId failAt
        dispatchFails).2.1 = db ∨
    (∃ pid vid,
      (verifyQuestCompletion db questId verifierId participantId failAt
        dispatchFails).2.1 = verifiedWrite db questId pid vid) ∨
    (∃ pid vid,
      (verifyQuestCompletion db questId verifierId participantId failAt
        dispatchFails).2.1 =
          awardFirstQuest (verifiedWrite db questId pid vid) pid) := by
  unfold verifyQuestCompletion
  repeat' split
  all_goals
    first
      | exact Or.inl rfl
      | exact verifyCommitPhase_db_cases db questId _ _ _ failAt

lemma noSelfRow_verifiedWrite (db : DB) (questId pid vid : Nat)
    (hinv : creatorNoSelfRow db) :
    creatorNoSelfRow (verifiedWrite db questId pid vid) := by
  intro p hp q' hq' hid
  obtain ⟨x, hx, hx1, hx2⟩ := mem_setVerified db.quest_participants questId pid p hp
  rw [hx1] at hid
  rw [hx2]
  exact hinv x hx q' hq' hid

lemma joinQuest_preserves_noSelfRow (db : DB) (questId : Nat) (userId : Option Nat)
    (hPW : db.quests.Pairwise (fun a b => a.id ≠ b.id))
    (hinv : creatorNoSelfRow db) :
    creatorNoSelfRow (joinQuest db questId userId).2 := by
  rcases userId with _ | uid
  · exact hinv
  unfold joinQuest
  rcases hq : findQuest db questId with _ | q
  · exact hinv
  by_cases hcr : (q.creator_id == uid) = true
  · simpa [hcr] using hinv
  by_cases hdup : (findParticipation db questId uid).isSome
  · simpa [hcr, hdup] using hinv
  simp only [hq, hcr, hdup, Bool.false_eq_true, if_false]
  intro p hp q' hq' hid
  rcases List.mem_append.mp hp with hold | hnew
  · exact hinv p hold q' hq' hid
  · obtain rfl : p = ⟨questId, uid, "joined", none⟩ := by simpa using hnew
    have : q' = q := find?_unique_id db.quests questId q hPW hq q' hq' hid
    subst this
    simpa using hcr

lemma completeQuest_preserves_noSelfRow (db : DB) (questId : Nat)
    (userId : Option Nat) (pf : Option String) (failAt : Option Nat)
    (hinv : creatorNoSelfRow db) :
    creatorNoSelfRow (completeQuest db questId userId pf failAt).2.1 := by
  rcases completeQuest_db_cases db questId userId pf failAt with h | ⟨uid, pfv, h⟩
  · rw [h]; exact hinv
  · rw [h]
    intro p hp q' hq' hid
    obtain ⟨x, hx, hx1, hx2⟩ :=
      mem_setSubmitted db.quest_participants questId uid pfv p hp
    rw [hx1] at hid
    rw [hx2]
    exact hinv x hx q' hq' hid

lemma verifyQuestCompletion_preserves_noSelfRow (db : DB) (questId : Nat)
    (verifierId participantId : Option Nat) (failAt : Option Nat)
    (dispatchFails : Bool) (hinv : creatorNoSelfRow db) :
    creatorNoSelfRow
      (verifyQuestCompletion db questId verifierId participantId failAt
        dispatchFails).2.1 := by
  rcases verifyQuestCompletion_db_cases db questId verifierId participantId
      failAt dispatchFails with h | ⟨pid, vid, h⟩ | ⟨pid, vid, h⟩
  · rw [h]; exact hinv
  · rw [h]; exact noSelfRow_verifiedWrite db questId pid vid hinv
  · rw [h]
    intro p hp q' hq' hid
    rw [awardFirstQuest_parts] at hp
    rw [awardFirstQuest_quests] at hq'
    exact noSelfRow_verifiedWrite db questId pid vid hinv p hp q' hq' hid

lemma deleteQuest_preserves_noSelfRow (db : DB) (questId : Nat)
    (userId : Option Nat) (hinv : creatorNoSelfRow db) :
    creatorNoSelfRow (deleteQuest db questId userId).2 := by
  unfold deleteQuest
  split
  · exact hinv
  split
  · intro p hp q' hq' hid
    exact hinv p hp q' (List.mem_filter.mp hq').1 hid
  · exact hinv

/-- C7: a quest's creator can never hold a participation row for their own
quest: a join request by the creator is rejected (InvalidOperation) with no
row created, and — assuming quest ids are unique — every operation of the
orchestrator preserves the invariant that no participation row pairs a
quest with its own creator, so the invariant holds in every reachable
state. -/
theorem creator_cannot_join_own_quest (db : DB) (questId : Nat) (q : QuestRow)
    (hq : findQuest db questId = some q)
    (hPW : db.quests.Pairwise (fun a b => a.id ≠ b.id)) :
    joinQuest db questId (some q.creator_id) = (Outcome.invalidOperation, db) ∧
    (∀ userId, creatorNoSelfRow db →
      creatorNoSelfRow (joinQuest db questId userId).2) ∧
    (∀ userId pf failAt, creatorNoSelfRow db →
      creatorNoSelfRow (completeQuest db questId userId pf failAt).2.1) ∧
    (∀ verifierId participantId failAt dispatchFails, creatorNoSelfRow db →
      creatorNoSelfRow
        (verifyQuestCompletion db questId verifierId participantId failAt
          dispatchFails).2.1) ∧
    (∀ userId, creatorNoSelfRow db →
      creatorNoSelfRow (deleteQuest db questId userId).2) := by
  refine ⟨?_, ?_, ?_, ?_, ?_⟩
  · unfold joinQuest
    rw [hq]
    simp
  · intro u hinv
    exact joinQuest_preserves_noSelfRow db questId u hPW hinv
  · intro u pf failAt hinv
    exact completeQuest_preserves_noSelfRow db questId u pf failAt hinv
  · intro v pid failAt df hinv
    exact verifyQuestCompletion_preserves_noSelfRow db questId v pid failAt df hinv
  · intro u hinv
    exact deleteQuest_preserves_noSelfRow db questId u hinv

theorem creator_cannot_join_own_quest_witness :
    joinQuest exDb10 11 (some exQ10.creator_id) =
      (Outcome.invalidOperation, exDb10) :=
  (creator_cannot_join_own_quest exDb10 11 exQ10 rfl (by decide)).1

/-! ### Happy-path shape of verify -/

/-- With all preconditions satisfied and no data-layer failure, verify
reduces to its commit phase. -/
lemma verify_happy_eq (db : DB) (questId vid pid : Nat) (q : QuestRow)
    (p : ParticipationRow)
    (hq : findQuest db questId = some q) (hc : q.creator_id = vid)
    (hp : findParticipation db questId pid = some p) (hs : p.status = "submitted")
    (df : Bool) :
    verifyQuestCompletion db questId (some vid) (some pid) none df =
      verifyCommitPhase db questId pid vid q none := by
  unfold verifyQuestCompletion
  simp [hq, hp, hc, hs]

/-- With no data-layer failure the commit phase always commits: the final
state is the verified write followed by the (conditional) achievement
award, the reward dispatch is attempted on that state, and the trace ends
in COMMIT. -/
lemma verifyCommitPhase_none (db : DB) (questId pid vid : Nat) (q : QuestRow) :
    verifyCommitPhase db questId pid vid q none =
      (Outcome.ok, awardFirstQuest (verifiedWrite db questId pid vid) pid,
        dispatchReward (awardFirstQuest (verifiedWrite db questId pid vid) pid)
          pid q.reward_amount,
        txTrace
          (if countVerified (verifiedWrite db questId pid vid) pid == 1 then
            (if hasAchievement (verifiedWrite db questId pid vid) pid 1 then 6 else 8)
          else 5) Ev.commit) := by
  unfold verifyCommitPhase awardFirstQuest
  by_cases h1 : (countVerified (verifiedWrite db questId pid vid) pid == 1) = true <;>
    by_cases h2 : hasAchievement (verifiedWrite db questId pid vid) pid 1 = true <;>
      simp [h1, h2]

lemma findUser_award (db : DB) (questId pid vid uid : Nat) :
    findUser (awardFirstQuest (verifiedWrite db questId pid vid) pid) uid =
      findUser db uid := by
  unfold findUser
  rw [awardFirstQuest_users]
  rfl

lemma countActivities_award (d : DB) (pid : Nat) :
    countActivities (awardFirstQuest d pid) "quest_verified" =
      countActivities d "quest_verified" := by
  unfold awardFirstQuest countActivities
  split
  · simp [List.filter_append]
  · rfl

lemma countActivities_write (db : DB) (questId pid vid : Nat) :
    countActivities (verifiedWrite db questId pid vid) "quest_verified" =
      countActivities db "quest_verified" + 1 := by
  unfold verifiedWrite countActivities
  simp [List.filter_append]

lemma countGrants_eq_zero_of_not_has (db : DB) (uid aid : Nat)
    (h : hasAchievement db uid aid = false) : countGrants db uid aid = 0 := by
  unfold hasAchievement at h
  unfold countGrants
  rw [List.length_eq_zero, List.filter_eq_nil_iff]
  intro a ha hpa
  have : db.user_achievements.any
      (fun a => a.user_id == uid && a.achievement_id == aid) = true :=
    List.any_eq_true.mpr ⟨a, ha, hpa⟩
  rw [h] at this
  exact Bool.false_ne_true this

/-! ### C1: the verify happy path -/

/-- C1: when the requester is the quest's creator, the participation row
exists with status `submitted`, and the participant has a payment address
on file, verify sets the participation status to `verified`, appends
exactly one `quest_verified` activity record, commits, invokes the
distributor with that address and the quest's reward amount exactly once,
and reports success. -/
theorem verify_happy_path (db : DB) (questId vid pid : Nat) (q : QuestRow)
    (p : ParticipationRow) (u : UserRow) (addr : String)
    (hq : findQuest db questId = some q) (hc : q.creator_id = vid)
    (hp : findParticipation db questId pid = some p) (hs : p.status = "submitted")
    (hu : findUser db pid = some u) (ha : u.aptos_address = some addr) :
    (verifyQuestCompletion db questId (some vid) (some pid) none false).1 =
        Outcome.ok ∧
    (verifyQuestCompletion db questId (some vid) (some pid) none false).2.2.1 =
        [(addr, q.reward_amount)] ∧
    (∀ r ∈ (verifyQuestCompletion db questId (some vid) (some pid) none
        false).2.1.quest_participants,
      r.quest_id = questId → r.user_id = pid → r.status = "verified") ∧
    countActivities
        (verifyQuestCompletion db questId (some vid) (some pid) none false).2.1
        "quest_verified" =
      countActivities db "quest_verified" + 1 ∧
    Ev.commit ∈
      (verifyQuestCompletion db questId (some vid) (some pid) none false).2.2.2 := by
  have he := verify_happy_eq db questId vid pid q p hq hc hp hs false
  rw [verifyCommitPhase_none] at he
  rw [he]
  refine ⟨rfl, ?_, ?_, ?_, ?_⟩
  · unfold dispatchReward
    rw [findUser_award, hu]
    simp [ha]
  · intro r hr h1 h2
    rw [awardFirstQuest_parts] at hr
    exact setVerified_status db.quest_participants questId pid r hr h1 h2
  · rw [countActivities_award, countActivities_write]
  · simp [txTrace]

theorem verify_happy_path_witness :
    (verifyQuestCompletion exDb 10 (some 1) (some 2) none false).1 =
        Outcome.ok ∧
    (verifyQuestCompletion exDb 10 (some 1) (some 2) none false).2.2.1 =
        [("0xAA", exQ.reward_amount)] ∧
    (∀ r ∈ (verifyQuestCompletion exDb 10 (some 1) (some 2) none
        false).2.1.quest_participants,
      r.quest_id = 10 → r.user_id = 2 → r.status = "verified") ∧
    countActivities
        (verifyQuestCompletion exDb 10 (some 1) (some 2) none false).2.1
        "quest_verified" =
      countActivities exDb "quest_verified" + 1 ∧
    Ev.commit ∈
      (verifyQuestCompletion exDb 10 (some 1) (some 2) none false).2.2.2 :=
  verify_happy_path exDb 10 1 2 exQ exP exU "0xAA" rfl rfl rfl rfl rfl rfl

/-! ### C2: reward dispatch is best-effort -/

/-- C2: after the verify transaction commits, neither a dispatch failure
nor a missing payment address changes the reported result: for every value
of the dispatch-failure flag the operation reports success and every
matching participation row is `verified`, and when no address is on file
no dispatch call is attempted. -/
theorem verify_dispatch_best_effort (db : DB) (questId vid pid : Nat)
    (q : QuestRow) (p : ParticipationRow)
    (hq : findQuest db questId = some q) (hc : q.creator_id = vid)
    (hp : findParticipation db questId pid = some p)
    (hs : p.status = "submitted") :
    ∀ dispatchFails : Bool,
      (verifyQuestCompletion db questId (some vid) (some pid) none
          dispatchFails).1 = Outcome.ok ∧
      (∀ r ∈ (verifyQuestCompletion db questId (some vid) (some pid) none
          dispatchFails).2.1.quest_participants,
        r.quest_id = questId → r.user_id = pid → r.status = "verified") ∧
      ((findUser db pid).bind (fun u => u.aptos_address) = none →
        (verifyQuestCompletion db questId (some vid) (some pid) none
          dispatchFails).2.2.1 = []) := by
  intro df
  have he := verify_happy_eq db questId vid pid q p hq hc hp hs df
  rw [verifyCommitPhase_none] at he
  rw [he]
  refine ⟨rfl, ?_, ?_⟩
  · intro r hr h1 h2
    rw [awardFirstQuest_parts] at hr
    exact setVerified_status db.quest_participants questId pid r hr h1 h2
  · intro hnone
    unfold dispatchReward
    rw [findUser_award, hnone]

theorem verify_dispatch_best_effort_witness :
    (verifyQuestCompletion exDbNoAddr 10 (some 1) (some 2) none true).1 =
        Outcome.ok ∧
    (verifyQuestCompletion exDbNoAddr 10 (some 1) (some 2) none true).2.2.1 =
        [] := by
  have h := verify_dispatch_best_effort exDbNoAddr 10 1 2 exQ exP
    rfl rfl rfl rfl true
  exact ⟨h.1, h.2.2 rfl⟩

/-! ### C3: the first-quest achievement is granted exactly when new -/

/-- The Boolean guard of the achievement award, as a proposition. -/
lemma awardCond_iff (d : DB) (pid : Nat) :
    (countVerified d pid == 1 && !(hasAchievement d pid 1)) = true ↔
      (countVerified d pid = 1 ∧ hasAchievement d pid 1 = false) := by
  simp [Bool.and_eq_true, beq_iff_eq, Bool.not_eq_true']

lemma awardFirstQuest_pos (d : DB) (pid : Nat) (h1 : countVerified d pid = 1)
    (h2 : hasAchievement d pid 1 = false) :
    awardFirstQuest d pid =
      { d with
        user_achievements := d.user_achievements ++ [⟨pid, 1⟩],
        user_activities := d.user_activities ++
          [⟨pid, "achievement_unlocked", none, none, none, none, some 1⟩] } := by
  unfold awardFirstQuest
  rw [if_pos ((awardCond_iff d pid).mpr ⟨h1, h2⟩)]

lemma awardFirstQuest_neg (d : DB) (pid : Nat)
    (h : ¬(countVerified d pid = 1 ∧ hasAchievement d pid 1 = false)) :
    awardFirstQuest d pid = d := by
  unfold awardFirstQuest
  rw [if_neg (fun hc => h ((awardCond_iff d pid).mp hc))]

/-- C3: inside the verify transaction and after the status write, the
grant for the first-quest milestone (achievement id 1) and its activity
record are inserted if and only if the participant's verified count on the
written state equals exactly one and no grant row exists yet; consequently
at most one grant row per user exists afterwards. -/
theorem verify_achievement_iff (db : DB) (questId vid pid : Nat) (q : QuestRow)
    (p : ParticipationRow)
    (hq : findQuest db questId = some q) (hc : q.creator_id = vid)
    (hp : findParticipation db questId pid = some p)
    (hs : p.status = "submitted") :
    ((verifyQuestCompletion db questId (some vid) (some pid) none
        false).2.1.user_achievements =
      if countVerified (verifiedWrite db questId pid vid) pid = 1 ∧
          hasAchievement (verifiedWrite db questId pid vid) pid 1 = false then
        db.user_achievements ++ [⟨pid, 1⟩]
      else db.user_achievements) ∧
    (countActivities
        (verifyQuestCompletion db questId (some vid) (some pid) none false).2.1
        "achievement_unlocked" =
      countActivities db "achievement_unlocked" +
        (if countVerified (verifiedWrite db questId pid vid) pid = 1 ∧
            hasAchievement (verifiedWrite db questId pid vid) pid 1 = false then
          1
        else 0)) ∧
    (countGrants db pid 1 ≤ 1 →
      countGrants
        (verifyQuestCompletion db questId (some vid) (some pid) none false).2.1
        pid 1 ≤ 1) := by
  have he := verify_happy_eq db questId vid pid q p hq hc hp hs false
  rw [verifyCommitPhase_none] at he
  rw [he]
  by_cases hcase : countVerified (verifiedWrite db questId pid vid) pid = 1 ∧
      hasAchievement (verifiedWrite db questId pid vid) pid 1 = false
  · rw [awardFirstQuest_pos _ _ hcase.1 hcase.2, if_pos hcase, if_pos hcase]
    refine ⟨rfl, ?_, ?_⟩
    · unfold countActivities verifiedWrite
      simp [List.filter_append]
    · intro _
      have hz : countGrants db pid 1 = 0 :=
        countGrants_eq_zero_of_not_has db pid 1 hcase.2
      unfold countGrants at hz ⊢
      simp only [verifiedWrite]
      simp [List.filter_append, hz]
  · rw [awardFirstQuest_neg _ _ hcase, if_neg hcase, if_neg hcase]
    refine ⟨rfl, ?_, ?_⟩
    · unfold countActivities verifiedWrite
      simp [List.filter_append]
    · intro hle
      unfold countGrants at hle ⊢
      simpa [verifiedWrite] using hle

/-! ### C8: transaction discipline -/

lemma txTrace_getLast (n : Nat) (e : Ev) :
    (txTrace n e).getLast? = some Ev.release := by
  unfold txTrace
  rw [List.getLast?_append]
  simp

lemma goodTrace_nil (r : Outcome) : goodTrace r [] := by
  simp [goodTrace]

lemma goodTrace_rollback (r : Outcome) (n : Nat) (h : r ≠ Outcome.ok) :
    goodTrace r (txTrace n Ev.rollback) := by
  refine ⟨Or.inr (txTrace_getLast n Ev.rollback), fun _ => rfl,
    fun _ _ => ⟨?_, ?_⟩, fun hr => absurd hr h⟩
  · simp [txTrace]
  · simp [txTrace, List.mem_replicate]

lemma goodTrace_commit (n : Nat) : goodTrace Outcome.ok (txTrace n Ev.commit) := by
  refine ⟨Or.inr (txTrace_getLast n Ev.commit), fun _ => rfl,
    fun _ hne => absurd rfl hne, fun _ _ => ⟨?_, ?_⟩⟩
  · simp [txTrace]
  · simp [txTrace, List.mem_replicate]

/-- C8: for every submit-completion and verify invocation — over all
database states, request parameters, and injected data-layer failure
points — the transaction client is released last on every path that
acquired it, every transaction-scoped error path rolls back (and never
commits) before the error is returned, and every success path commits. -/
theorem txn_resource_discipline (db : DB) (questId : Nat)
    (userId : Option Nat) (pf : Option String)
    (verifierId participantId : Option Nat)
    (failAt failAt2 : Option Nat) (dispatchFails : Bool) :
    goodTrace (completeQuest db questId userId pf failAt).1
      (completeQuest db questId userId pf failAt).2.2 ∧
    goodTrace
      (verifyQuestCompletion db questId verifierId participantId failAt2
        dispatchFails).1
      (verifyQuestCompletion db questId verifierId participantId failAt2
        dispatchFails).2.2.2 := by
  constructor
  · unfold completeQuest
    repeat' split
    all_goals
      first
        | exact goodTrace_nil _
        | exact goodTrace_commit _
        | exact goodTrace_rollback _ _ (by simp)
  · have hcp : ∀ pid vid q,
        goodTrace (verifyCommitPhase db questId pid vid q failAt2).1
          (verifyCommitPhase db questId pid vid q failAt2).2.2.2 := by
      intro pid vid q
      unfold verifyCommitPhase
      repeat' split
      all_goals
        first
          | exact goodTrace_commit _
          | exact goodTrace_rollback _ _ (by simp)
    unfold verifyQuestCompletion
    repeat' split
    all_goals
      first
        | exact goodTrace_nil _
        | exact goodTrace_rollback _ _ (by simp)
        | exact hcp _ _ _

theorem verify_achievement_iff_witness :
    ((verifyQuestCompletion exDb 10 (some 1) (some 2) none
        false).2.1.user_achievements =
      if countVerified (verifiedWrite exDb 10 2 1) 2 = 1 ∧
          hasAchievement (verifiedWrite exDb 10 2 1) 2 1 = false then
        exDb.user_achievements ++ [⟨2, 1⟩]
      else exDb.user_achievements) ∧
    (countActivities
        (verifyQuestCompletion exDb 10 (some 1) (some 2) none false).2.1
        "achievement_unlocked" =
      countActivities exDb "achievement_unlocked" +
        (if countVerified (verifiedWrite exDb 10 2 1) 2 = 1 ∧
            hasAchievement (verifiedWrite exDb 10 2 1) 2 1 = false then
          1
        else 0)) ∧
    (countGrants exDb 2 1 ≤ 1 →
      countGrants
        (verifyQuestCompletion exDb 10 (some 1) (some 2) none false).2.1
        2 1 ≤ 1) :=
  verify_achievement_iff exDb 10 1 2 exQ exP rfl rfl rfl rfl
